import Mathlib

/-!
Verification development for the slot-based builder permissioning core of
`init4tech/bin-base` (shallow embedding of `src/utils/calc.rs`,
`src/perms/builders.rs`, `src/perms/config.rs`, `src/perms/middleware.rs`).

Machine integers (`u64`, `usize`, `u8`) are modelled as `Nat`; Rust's plain
subtraction on unsigned integers (which panics on underflow in checked builds)
is modelled through `checkedSub` where the underflow matters, and a panic is
modelled as `none`.
-/

/-- Rust's `u64::checked_sub` / `usize::checked_sub`: `some (a - b)` when
`b <= a`, `none` on underflow. -/
def checkedSub (a b : Nat) : Option Nat :=
  if b ≤ a then some (a - b) else none

/-- The `SlotCalculator` struct from `src/utils/calc.rs`: `start_timestamp` is
the timestamp ending the chain's initial recorded slot, `slot_offset` the slot
number of that initial header, `slot_duration` the fixed slot width in
seconds. -/
structure SlotCalculator where
  start_timestamp : Nat
  slot_offset : Nat
  slot_duration : Nat
deriving DecidableEq, Repr

namespace SlotCalculator

/-- `SlotCalculator::new` from `src/utils/calc.rs`. -/
def new (start_timestamp slot_offset slot_duration : Nat) : SlotCalculator :=
  ⟨start_timestamp, slot_offset, slot_duration⟩

/-- `SlotCalculator::slot_utc_offset`: `start_timestamp % slot_duration`. -/
def slot_utc_offset (c : SlotCalculator) : Nat :=
  c.start_timestamp % c.slot_duration

/-- `SlotCalculator::slot_containing` from `src/utils/calc.rs`: `none` when the
timestamp is before the chain start, otherwise
`elapsed / slot_duration + 1 + slot_offset`. -/
def slot_containing (c : SlotCalculator) (timestamp : Nat) : Option Nat :=
  match checkedSub timestamp c.start_timestamp with
  | none => none
  | some elapsed => some ((elapsed / c.slot_duration + 1) + c.slot_offset)

/-- `SlotCalculator::point_within_slot` from `src/utils/calc.rs`:
`(timestamp - slot_utc_offset) % slot_duration`, `none` when the timestamp is
before the UTC-aligned origin. -/
def point_within_slot (c : SlotCalculator) (timestamp : Nat) : Option Nat :=
  match checkedSub timestamp c.slot_utc_offset with
  | none => none
  | some offset => some (offset % c.slot_duration)

/-- `SlotCalculator::slot_window` from `src/utils/calc.rs`, in the model where
Rust's unsigned subtraction is truncated: the pair (start, end) with
`end = (slot_number - slot_offset) * slot_duration + start_timestamp` and
`start = end - slot_duration`. Faithful to the source on the domain where
neither subtraction underflows; `slot_windowChecked` tracks the underflow. -/
def slot_window (c : SlotCalculator) (slot_number : Nat) : Nat × Nat :=
  let end_of_slot := (slot_number - c.slot_offset) * c.slot_duration + c.start_timestamp
  let start_of_slot := end_of_slot - c.slot_duration
  (start_of_slot, end_of_slot)

/-- `SlotCalculator::slot_window` with both unsigned subtractions made
explicit: `none` models the Rust panic on underflow. -/
def slot_windowChecked (c : SlotCalculator) (slot_number : Nat) : Option (Nat × Nat) :=
  match checkedSub slot_number c.slot_offset with
  | none => none
  | some n =>
    let end_of_slot := n * c.slot_duration + c.start_timestamp
    match checkedSub end_of_slot c.slot_duration with
    | none => none
    | some start_of_slot => some (start_of_slot, end_of_slot)

/-- `SlotCalculator::slot_start`: the start of `slot_window`. -/
def slot_start (c : SlotCalculator) (slot_number : Nat) : Nat :=
  (c.slot_window slot_number).1

/-- `SlotCalculator::slot_end`: the end of `slot_window`. -/
def slot_end (c : SlotCalculator) (slot_number : Nat) : Nat :=
  (c.slot_window slot_number).2

/-- Modelled from the spec: the historic `SlotCalculator::calculate_slot`
method called by `Builders::index` in `src/perms/builders.rs` is absent from
`src/utils/calc.rs`; spec section 4.1 (and the doc comment of `calc.rs`) give
`slot_for(t) = ((t - start_timestamp) / slot_duration) + slot_offset + 1`. -/
def calculate_slot (c : SlotCalculator) (timestamp : Nat) : Nat :=
  (timestamp - c.start_timestamp) / c.slot_duration + c.slot_offset + 1

/-- Modelled from the spec: the historic
`SlotCalculator::current_timepoint_within_slot` called by
`Builders::is_builder_permissioned` is absent from `src/utils/calc.rs`; spec
section 4.1 gives `point_within_slot(t) = (t - slot_utc_offset) mod
slot_duration`, fed with the current wall-clock time, which the model takes as
the explicit argument `now`. -/
def current_timepoint_within_slot (c : SlotCalculator) (now : Nat) : Nat :=
  (now - c.slot_utc_offset) % c.slot_duration

end SlotCalculator

/-- Rust's `Ord::clamp` on unsigned integers: `max lo (min v hi)` (for
`lo <= hi`). -/
def rustClamp (v lo hi : Nat) : Nat := max lo (min v hi)

/-- The `SlotAuthzConfig` struct from `src/perms/config.rs`: `chain_offset`,
`block_query_cutoff` and `block_query_start` are `u8` seconds-into-slot
values, modelled as `Nat`. -/
structure SlotAuthzConfig where
  chain_offset : Nat
  block_query_cutoff : Nat
  block_query_start : Nat
deriving DecidableEq, Repr

namespace SlotAuthzConfig

/-- `SlotAuthzConfig::new` from `src/perms/config.rs`: each field is clamped
with `clamp(0, 11)`. -/
def new (chain_offset block_query_cutoff block_query_start : Nat) : SlotAuthzConfig :=
  ⟨rustClamp chain_offset 0 11, rustClamp block_query_cutoff 0 11,
    rustClamp block_query_start 0 11⟩

/-- The value transformation of `SlotAuthzConfig::from_env` from
`src/perms/config.rs` once the three environment variables have been parsed to
`u8` (the parsing itself is I/O and out of scope): each parsed value is
clamped with `clamp(0, 11)`. -/
def from_env_values (chain_offset block_query_cutoff block_query_start : Nat) :
    SlotAuthzConfig :=
  ⟨rustClamp chain_offset 0 11, rustClamp block_query_cutoff 0 11,
    rustClamp block_query_start 0 11⟩

end SlotAuthzConfig

/-- The `Builder` struct from `src/perms/builders.rs`: a builder identified by
its JWT `sub` claim. -/
structure Builder where
  sub : String
deriving DecidableEq, Repr

/-- The `BuilderPermissionError` enum from `src/perms/builders.rs`. -/
inductive BuilderPermissionError where
  | ActionAttemptTooEarly
  | ActionAttemptTooLate
  | NotPermissioned
deriving DecidableEq, Repr

/-- Rust's `Result<(), BuilderPermissionError>`, the return type of
`Builders::is_builder_permissioned`. -/
inductive PermissionDecision where
  | ok : PermissionDecision
  | err : BuilderPermissionError → PermissionDecision
deriving DecidableEq, Repr

/-- Modelled from the spec: the slot authorization configuration revision held
by `Builders` in `src/perms/builders.rs` exposes `calc()`,
`block_query_start()` and `block_query_cutoff()`; the `SlotAuthzConfig`
revision under `src/perms/config.rs` lacks the embedded `SlotCalculator`, so
this follows spec section 3 (`AuthorizationWindowConfig`: an embedded
calculator plus the two window bounds). -/
structure BuildersAuthzConfig where
  calc' : SlotCalculator
  block_query_start : Nat
  block_query_cutoff : Nat
deriving DecidableEq, Repr

/-- The `Builders` struct from `src/perms/builders.rs`: the ordered roster and
the slot authorization configuration. -/
structure Builders where
  builders : List Builder
  config : BuildersAuthzConfig
deriving DecidableEq, Repr

namespace Builders

/-- `Builders::calc` from `src/perms/builders.rs` (`calc` is reserved in
Lean, hence the trailing tick). -/
def calc' (b : Builders) : SlotCalculator := b.config.calc'

/-- `Builders::builder_at` from `src/perms/builders.rs`: indexes the roster;
the Rust indexing panics when out of bounds, modelled as `none`. -/
def builder_at? (b : Builders) (index : Nat) : Option Builder :=
  b.builders.get? index

/-- `Builders::index` from `src/perms/builders.rs`:
`calculate_slot(timestamp) % builders.len()`; the Rust `%` panics when the
roster is empty (remainder by zero), modelled as `none`. -/
def index? (b : Builders) (timestamp : Nat) : Option Nat :=
  if b.builders.length = 0 then none
  else some (b.calc'.calculate_slot timestamp % b.builders.length)

/-- `Builders::builder_at_timestamp` from `src/perms/builders.rs`:
`builder_at(index(timestamp))`, with both panics propagated as `none`. -/
def builder_at_timestamp? (b : Builders) (timestamp : Nat) : Option Builder :=
  match b.index? timestamp with
  | none => none
  | some i => b.builder_at? i

/-- `Builders::current_builder` from `src/perms/builders.rs`:
`builder_at(index_now())`; the wall-clock reading `now()` is the explicit
argument. -/
def current_builder? (b : Builders) (now : Nat) : Option Builder :=
  b.builder_at_timestamp? now

/-- The roster position the round-robin selector assigns to a slot number:
`Builders.index?` is this map applied to `calculate_slot`. -/
def indexOfSlot (b : Builders) (slot : Nat) : Nat :=
  slot % b.builders.length

/-- `Builders::is_builder_permissioned` from `src/perms/builders.rs`: the
three ordered checks (too early, too late, wrong identity); the wall-clock
reading is the explicit argument `now`, and the panic of `current_builder` on
an empty roster is propagated as `none`. -/
def is_builder_permissioned (b : Builders) (now : Nat) (sub : String) :
    Option PermissionDecision :=
  let current_slot_time := b.calc'.current_timepoint_within_slot now
  if current_slot_time < b.config.block_query_start then
    some (.err .ActionAttemptTooEarly)
  else if current_slot_time > b.config.block_query_cutoff then
    some (.err .ActionAttemptTooLate)
  else
    match b.current_builder? now with
    | none => none
    | some bd =>
      if sub ≠ bd.sub then some (.err .NotPermissioned)
      else some .ok

end Builders

/-- The byte predicate of `http::HeaderValue::to_str` (used by
`validate_header_sub` in `src/perms/middleware.rs`): a byte is accepted when
it is visible ASCII, space, or horizontal tab. -/
def isVisibleAscii (b : Nat) : Bool :=
  (32 ≤ b && b < 127) || b == 9

/-- `HeaderValue::to_str` as called in `src/perms/middleware.rs`: decodes the
raw header bytes to a string, failing when some byte is not visible ASCII. -/
def headerValueToStr (bytes : List Nat) : Option String :=
  if bytes.all isVisibleAscii then some (String.mk (bytes.map Char.ofNat))
  else none

/-- The three transport-level rejections built by `ApiError` in
`src/perms/middleware.rs`: `missing_header`, `invalid_encoding`,
`header_empty`. -/
inductive HeaderRejection where
  | missingHeader
  | invalidEncoding
  | headerEmpty
deriving DecidableEq, Repr

/-- `validate_header_sub` from `src/perms/middleware.rs`: absent header, then
undecodable bytes, then empty string are rejected in that order; otherwise the
decoded `sub` is returned. -/
def validate_header_sub (sub : Option (List Nat)) :
    Except HeaderRejection String :=
  match sub with
  | none => .error .missingHeader
  | some v =>
    match headerValueToStr v with
    | none => .error .invalidEncoding
    | some s => if s.isEmpty then .error .headerEmpty else .ok s

/-- The observable outcome of one `BuilderPermissioningService::call`: a
transport-level rejection, a permission denial from the core check, or the
request forwarded to the inner service. -/
inductive CallOutcome where
  | headerRejected : HeaderRejection → CallOutcome
  | permissionDenied : BuilderPermissionError → CallOutcome
  | forwarded : CallOutcome
deriving DecidableEq, Repr

/-- The dispatch structure of `BuilderPermissioningService::call` from
`src/perms/middleware.rs`, abstracted over the core authorization check: a
header validation failure short-circuits, a core-check error yields the
permission-denied response, and only a passing check forwards the request. -/
def service_call (check : String → PermissionDecision)
    (header : Option (List Nat)) : CallOutcome :=
  match validate_header_sub header with
  | .error e => .headerRejected e
  | .ok sub =>
    match check sub with
    | .err e => .permissionDenied e
    | .ok => .forwarded

/-- `BuilderPermissioningService::call` from `src/perms/middleware.rs` with
the core check instantiated to `Builders::is_builder_permissioned`; the
wall-clock reading is the explicit argument `now`, and a panic of the core
check (empty roster) is propagated as `none`. -/
def Builders.service_call? (b : Builders) (now : Nat)
    (header : Option (List Nat)) : Option CallOutcome :=
  match validate_header_sub header with
  | .error e => some (.headerRejected e)
  | .ok sub =>
    match b.is_builder_permissioned now sub with
    | none => none
    | some (.err e) => some (.permissionDenied e)
    | some .ok => some .forwarded

/-- A two-builder roster with window bounds 1 and 11 over
`SlotCalculator.new 0 0 12`, used to evaluate the authorization check. -/
def exampleBuildersAB : Builders :=
  ⟨[⟨"a"⟩, ⟨"b"⟩], ⟨SlotCalculator.new 0 0 12, 1, 11⟩⟩

/-- The three-builder roster `["a","b","c"]` of the spec's concrete
scenario B. -/
def exampleBuildersABC : Builders :=
  ⟨[⟨"a"⟩, ⟨"b"⟩, ⟨"c"⟩], ⟨SlotCalculator.new 0 0 12, 1, 11⟩⟩

/-- A `Builders` value whose roster is empty. -/
def emptyRosterBuilders : Builders :=
  ⟨[], ⟨SlotCalculator.new 0 0 12, 0, 11⟩⟩

/-- Claim C2: for every `SlotCalculator` with positive slot duration, `slot_containing t`
is `none` exactly when `t` is before `start_timestamp`, and otherwise equals
`slot_offset + (t - start_timestamp) / slot_duration + 1`; at
`start_timestamp` itself it is `slot_offset + 1`; and for
`SlotCalculator.new 12 0 12` the values at 11, 12, 23, 24 are `none`,
`some 1`, `some 1`, `some 2`. -/
theorem slot_containing_spec :
    (∀ (c : SlotCalculator), 0 < c.slot_duration → ∀ t : Nat,
      (c.slot_containing t = none ↔ t < c.start_timestamp) ∧
      (c.start_timestamp ≤ t →
        c.slot_containing t =
          some (c.slot_offset + (t - c.start_timestamp) / c.slot_duration + 1)) ∧
      c.slot_containing c.start_timestamp = some (c.slot_offset + 1)) ∧
    (SlotCalculator.new 12 0 12).slot_containing 11 = none ∧
    (SlotCalculator.new 12 0 12).slot_containing 12 = some 1 ∧
    (SlotCalculator.new 12 0 12).slot_containing 23 = some 1 ∧
    (SlotCalculator.new 12 0 12).slot_containing 24 = some 2 := by
  refine ⟨fun c hd t => ⟨?_, ?_, ?_⟩, by decide, by decide, by decide, by decide⟩
  · unfold SlotCalculator.slot_containing checkedSub
    by_cases h : c.start_timestamp ≤ t
    · simp [h]
    · simp [h]
      omega
  · intro hle
    unfold SlotCalculator.slot_containing checkedSub
    simp [hle]
    omega
  · unfold SlotCalculator.slot_containing checkedSub
    simp [Nat.sub_self]
    omega

/-- Witness for C2: the universally quantified part evaluated at
`SlotCalculator.new 12 0 12` and `t = 25`. -/
theorem slot_containing_spec_witness :
    ((SlotCalculator.new 12 0 12).slot_containing 25 = none ↔
      (25 : Nat) < (SlotCalculator.new 12 0 12).start_timestamp) ∧
    ((SlotCalculator.new 12 0 12).start_timestamp ≤ 25 →
      (SlotCalculator.new 12 0 12).slot_containing 25 =
        some ((SlotCalculator.new 12 0 12).slot_offset +
          (25 - (SlotCalculator.new 12 0 12).start_timestamp) /
            (SlotCalculator.new 12 0 12).slot_duration + 1)) ∧
    (SlotCalculator.new 12 0 12).slot_containing
        (SlotCalculator.new 12 0 12).start_timestamp =
      some ((SlotCalculator.new 12 0 12).slot_offset + 1) :=
  slot_containing_spec.1 (SlotCalculator.new 12 0 12) (by decide) 25

/-- Claim C6: for every `SlotCalculator` with positive slot duration and every
valid slot (normalized slot number at least 1), the end of `slot_window slot`
equals the start of `slot_window (slot + 1)`: adjacent slot windows tile time
with no gaps and no overlaps. -/
theorem slot_window_tiling (c : SlotCalculator) (slot : Nat)
    (hd : 0 < c.slot_duration) (hs : c.slot_offset + 1 ≤ slot) :
    (c.slot_window slot).2 = (c.slot_window (slot + 1)).1 := by
  simp only [SlotCalculator.slot_window]
  have h1 : slot + 1 - c.slot_offset = (slot - c.slot_offset) + 1 := by omega
  rw [h1, Nat.succ_mul]
  omega

/-- Witness for C6 at `SlotCalculator.new 12 0 12`, slot 1: window 1 ends at 24
and window 2 starts at 24. -/
theorem slot_window_tiling_witness :
    ((SlotCalculator.new 12 0 12).slot_window 1).2 =
      ((SlotCalculator.new 12 0 12).slot_window (1 + 1)).1 :=
  slot_window_tiling (SlotCalculator.new 12 0 12) 1 (by decide) (by decide)

/-- Claim C7: for every `SlotCalculator` with positive slot duration and every
valid slot (normalized slot number at least 1), `point_within_slot` is `some 0`
at the slot's start and `some (slot_duration - 1)` at the last second before
the slot's end. -/
theorem point_within_slot_boundaries (c : SlotCalculator) (slot : Nat)
    (hd : 0 < c.slot_duration) (hs : c.slot_offset + 1 ≤ slot) :
    c.point_within_slot (c.slot_start slot) = some 0 ∧
    c.point_within_slot (c.slot_end slot - 1) = some (c.slot_duration - 1) := by
  obtain ⟨m, hm⟩ : ∃ m, slot - c.slot_offset = m + 1 :=
    ⟨slot - c.slot_offset - 1, by omega⟩
  obtain ⟨q, r, hqr, hrlt⟩ :
      ∃ q r, c.start_timestamp = c.slot_duration * q + r ∧ r < c.slot_duration :=
    ⟨c.start_timestamp / c.slot_duration, c.start_timestamp % c.slot_duration,
      (Nat.div_add_mod c.start_timestamp c.slot_duration).symm,
      Nat.mod_lt _ hd⟩
  have hutc : c.slot_utc_offset = r := by
    rw [SlotCalculator.slot_utc_offset, hqr, Nat.mul_add_mod, Nat.mod_eq_of_lt hrlt]
  have hmd : (m + 1) * c.slot_duration = c.slot_duration * m + c.slot_duration := by
    rw [Nat.mul_comm]
    exact Nat.mul_succ c.slot_duration m
  have hsum : c.slot_duration * (m + q) = c.slot_duration * m + c.slot_duration * q :=
    Nat.mul_add c.slot_duration m q
  have hstart : c.slot_start slot = c.slot_duration * m + c.start_timestamp := by
    simp only [SlotCalculator.slot_start, SlotCalculator.slot_window, hm, hmd]
    omega
  have hend : c.slot_end slot =
      c.slot_duration * m + c.slot_duration + c.start_timestamp := by
    simp only [SlotCalculator.slot_end, SlotCalculator.slot_window, hm, hmd]
  constructor
  · rw [hstart]
    unfold SlotCalculator.point_within_slot checkedSub
    rw [hutc, if_pos (by omega)]
    have e1 : c.slot_duration * m + c.start_timestamp - r =
        c.slot_duration * (m + q) := by
      rw [hqr]
      omega
    rw [e1]
    simp [Nat.mul_mod_right]
  · rw [hend]
    unfold SlotCalculator.point_within_slot checkedSub
    rw [hutc, if_pos (by omega)]
    have e2 : c.slot_duration * m + c.slot_duration + c.start_timestamp - 1 - r =
        c.slot_duration * (m + q) + (c.slot_duration - 1) := by
      rw [hqr]
      omega
    rw [e2]
    simp [Nat.mul_add_mod, Nat.mod_eq_of_lt (show c.slot_duration - 1 < c.slot_duration by omega)]

/-- Witness for C7 at `SlotCalculator.new 12 0 12`, slot 1: the point at the
slot start 12 is 0 and the point at 23 is 11. -/
theorem point_within_slot_boundaries_witness :
    (SlotCalculator.new 12 0 12).point_within_slot
        ((SlotCalculator.new 12 0 12).slot_start 1) = some 0 ∧
    (SlotCalculator.new 12 0 12).point_within_slot
        ((SlotCalculator.new 12 0 12).slot_end 1 - 1) = some (12 - 1) :=
  point_within_slot_boundaries (SlotCalculator.new 12 0 12) 1 (by decide) (by decide)

/-- Counterexample for claim C8: for `SlotCalculator.new 12 0 12` the value
`slot_end (slot_offset + 1)` is 24, which differs from the start timestamp 12,
so `start_timestamp = slot_end(slot_offset + 1)` fails. -/
theorem first_header_timestamp_counterexample :
    (SlotCalculator.new 12 0 12).slot_end
        ((SlotCalculator.new 12 0 12).slot_offset + 1) = 24 ∧
    (SlotCalculator.new 12 0 12).start_timestamp = 12 ∧
    (SlotCalculator.new 12 0 12).slot_end
        ((SlotCalculator.new 12 0 12).slot_offset + 1) ≠
      (SlotCalculator.new 12 0 12).start_timestamp := by
  decide

/-- Amended claim C8: `start_timestamp` is the end of the initial recorded slot
`slot_offset` — `slot_end (slot_offset)`, equivalently
`slot_start (slot_offset + 1)` — not `slot_end (slot_offset + 1)`. The
hypothesis `slot_duration <= start_timestamp` keeps the truncated-subtraction
model on the domain where the source's unsigned subtraction in `slot_window`
does not underflow, as the checked conjunct shows. -/
theorem first_header_timestamp (c : SlotCalculator)
    (hts : c.slot_duration ≤ c.start_timestamp) :
    c.slot_end c.slot_offset = c.start_timestamp ∧
    c.slot_start (c.slot_offset + 1) = c.start_timestamp ∧
    c.slot_windowChecked c.slot_offset =
      some (c.start_timestamp - c.slot_duration, c.start_timestamp) := by
  refine ⟨?_, ?_, ?_⟩
  · simp [SlotCalculator.slot_end, SlotCalculator.slot_window, Nat.sub_self]
  · simp only [SlotCalculator.slot_start, SlotCalculator.slot_window,
      Nat.add_sub_cancel_left, Nat.one_mul]
  · unfold SlotCalculator.slot_windowChecked checkedSub
    simp [Nat.sub_self, hts]

/-- Witness for the amended C8 at `SlotCalculator.new 12 0 12`. -/
theorem first_header_timestamp_witness :
    (SlotCalculator.new 12 0 12).slot_end (SlotCalculator.new 12 0 12).slot_offset =
      (SlotCalculator.new 12 0 12).start_timestamp ∧
    (SlotCalculator.new 12 0 12).slot_start
        ((SlotCalculator.new 12 0 12).slot_offset + 1) =
      (SlotCalculator.new 12 0 12).start_timestamp ∧
    (SlotCalculator.new 12 0 12).slot_windowChecked
        (SlotCalculator.new 12 0 12).slot_offset =
      some ((SlotCalculator.new 12 0 12).start_timestamp -
        (SlotCalculator.new 12 0 12).slot_duration,
        (SlotCalculator.new 12 0 12).start_timestamp) :=
  first_header_timestamp (SlotCalculator.new 12 0 12) (by decide)

/-- Claim C10: for every `SlotCalculator` with positive slot duration,
`slot_window` (hence `slot_start` and `slot_end`) is well defined for every
`slot` with `slot_offset + 1 <= slot`: neither internal subtraction underflows
and the returned range has width exactly `slot_duration`; whereas for every
`slot < slot_offset` the internal subtraction `slot - slot_offset`
underflows (modelled as `none`). -/
theorem slot_window_domain (c : SlotCalculator) (slot : Nat)
    (hd : 0 < c.slot_duration) :
    (c.slot_offset + 1 ≤ slot →
      c.slot_windowChecked slot = some (c.slot_start slot, c.slot_end slot) ∧
      c.slot_end slot = c.slot_start slot + c.slot_duration) ∧
    (slot < c.slot_offset → c.slot_windowChecked slot = none) := by
  constructor
  · intro hs
    have hdle : c.slot_duration ≤ (slot - c.slot_offset) * c.slot_duration := by
      calc c.slot_duration = 1 * c.slot_duration := (Nat.one_mul _).symm
        _ ≤ (slot - c.slot_offset) * c.slot_duration :=
          Nat.mul_le_mul_right _ (by omega)
    have h1 : checkedSub slot c.slot_offset = some (slot - c.slot_offset) := by
      unfold checkedSub
      rw [if_pos (by omega)]
    have h2 : checkedSub ((slot - c.slot_offset) * c.slot_duration + c.start_timestamp)
        c.slot_duration =
        some ((slot - c.slot_offset) * c.slot_duration + c.start_timestamp -
          c.slot_duration) := by
      unfold checkedSub
      rw [if_pos (by omega)]
    constructor
    · simp only [SlotCalculator.slot_windowChecked, h1, h2, SlotCalculator.slot_start,
        SlotCalculator.slot_end, SlotCalculator.slot_window]
    · simp only [SlotCalculator.slot_start, SlotCalculator.slot_end,
        SlotCalculator.slot_window]
      omega
  · intro hs
    have h1 : checkedSub slot c.slot_offset = none := by
      unfold checkedSub
      rw [if_neg (by omega)]
    simp [SlotCalculator.slot_windowChecked, h1]

/-- Witness for C10 at `SlotCalculator.new 12 3 12`: slot 4 is valid with a
window of width 12, and slot 2 underflows. -/
theorem slot_window_domain_witness :
    ((SlotCalculator.new 12 3 12).slot_windowChecked 4 =
        some ((SlotCalculator.new 12 3 12).slot_start 4,
          (SlotCalculator.new 12 3 12).slot_end 4) ∧
      (SlotCalculator.new 12 3 12).slot_end 4 =
        (SlotCalculator.new 12 3 12).slot_start 4 +
          (SlotCalculator.new 12 3 12).slot_duration) ∧
    (SlotCalculator.new 12 3 12).slot_windowChecked 2 = none :=
  ⟨(slot_window_domain (SlotCalculator.new 12 3 12) 4 (by decide)).1 (by decide),
    (slot_window_domain (SlotCalculator.new 12 3 12) 2 (by decide)).2 (by decide)⟩

/-- Claim C1: for every `Builders` value with its configured (non-empty)
roster and every claimed `sub`, `is_builder_permissioned` evaluates three
checks in a fixed order: a point strictly before `block_query_start` is
rejected `ActionAttemptTooEarly`; otherwise a point strictly after
`block_query_cutoff` is rejected `ActionAttemptTooLate`; otherwise a `sub`
differing byte-for-byte from the currently assigned builder is rejected
`NotPermissioned`; otherwise the action is permitted. A point equal to
`block_query_start` or to `block_query_cutoff` passes both window checks. -/
theorem is_builder_permissioned_spec (b : Builders) (now : Nat) (sub : String)
    (hne : b.builders ≠ []) :
    ∃ bd, b.current_builder? now = some bd ∧
      (b.calc'.current_timepoint_within_slot now < b.config.block_query_start →
        b.is_builder_permissioned now sub = some (.err .ActionAttemptTooEarly)) ∧
      (b.config.block_query_start ≤ b.calc'.current_timepoint_within_slot now →
        b.config.block_query_cutoff < b.calc'.current_timepoint_within_slot now →
        b.is_builder_permissioned now sub = some (.err .ActionAttemptTooLate)) ∧
      (b.config.block_query_start ≤ b.calc'.current_timepoint_within_slot now →
        b.calc'.current_timepoint_within_slot now ≤ b.config.block_query_cutoff →
        sub ≠ bd.sub →
        b.is_builder_permissioned now sub = some (.err .NotPermissioned)) ∧
      (b.config.block_query_start ≤ b.calc'.current_timepoint_within_slot now →
        b.calc'.current_timepoint_within_slot now ≤ b.config.block_query_cutoff →
        sub = bd.sub →
        b.is_builder_permissioned now sub = some .ok) := by
  have hlen : b.builders.length ≠ 0 := by
    simpa [List.length_eq_zero] using hne
  have hpos : 0 < b.builders.length := Nat.pos_of_ne_zero hlen
  have hi : b.calc'.calculate_slot now % b.builders.length < b.builders.length :=
    Nat.mod_lt _ hpos
  have hcb : b.current_builder? now =
      some (b.builders.get ⟨b.calc'.calculate_slot now % b.builders.length, hi⟩) := by
    unfold Builders.current_builder? Builders.builder_at_timestamp? Builders.index?
      Builders.builder_at?
    rw [if_neg hlen]
    simp [List.get?_eq_get hi]
  refine ⟨_, hcb, ?_, ?_, ?_, ?_⟩
  · intro h
    simp only [Builders.is_builder_permissioned]
    rw [if_pos h]
  · intro h1 h2
    simp only [Builders.is_builder_permissioned]
    rw [if_neg (by omega), if_pos h2]
  · intro h1 h2 h3
    simp only [Builders.is_builder_permissioned]
    rw [if_neg (by omega), if_neg (by omega), hcb]
    simp [h3]
    exact h3
  · intro h1 h2 h3
    simp only [Builders.is_builder_permissioned]
    rw [if_neg (by omega), if_neg (by omega), hcb]
    simp [h3]

/-- Witness for C1 at `exampleBuildersAB`, `now = 5`, `sub = "b"`: the point 5
lies inside the window `[1, 11]` and the assigned builder at slot 1 is
`"b"`. -/
theorem is_builder_permissioned_spec_witness :
    ∃ bd, exampleBuildersAB.current_builder? 5 = some bd ∧
      (exampleBuildersAB.calc'.current_timepoint_within_slot 5 <
          exampleBuildersAB.config.block_query_start →
        exampleBuildersAB.is_builder_permissioned 5 "b" =
          some (.err .ActionAttemptTooEarly)) ∧
      (exampleBuildersAB.config.block_query_start ≤
          exampleBuildersAB.calc'.current_timepoint_within_slot 5 →
        exampleBuildersAB.config.block_query_cutoff <
          exampleBuildersAB.calc'.current_timepoint_within_slot 5 →
        exampleBuildersAB.is_builder_permissioned 5 "b" =
          some (.err .ActionAttemptTooLate)) ∧
      (exampleBuildersAB.config.block_query_start ≤
          exampleBuildersAB.calc'.current_timepoint_within_slot 5 →
        exampleBuildersAB.calc'.current_timepoint_within_slot 5 ≤
          exampleBuildersAB.config.block_query_cutoff →
        "b" ≠ bd.sub →
        exampleBuildersAB.is_builder_permissioned 5 "b" =
          some (.err .NotPermissioned)) ∧
      (exampleBuildersAB.config.block_query_start ≤
          exampleBuildersAB.calc'.current_timepoint_within_slot 5 →
        exampleBuildersAB.calc'.current_timepoint_within_slot 5 ≤
          exampleBuildersAB.config.block_query_cutoff →
        "b" = bd.sub →
        exampleBuildersAB.is_builder_permissioned 5 "b" = some .ok) :=
  is_builder_permissioned_spec exampleBuildersAB 5 "b" (by decide)

/-- Claim C3 (showing the code bug): with an empty roster the round-robin
operations return no misconfigured signal; `index` computes a remainder by
zero and `builder_at` indexes an empty vector, which panic in Rust (modelled
as `none`), and `is_builder_permissioned` reaches that panic once the two
window checks pass (at point 0 with `block_query_start = 0`). -/
theorem empty_roster_panics :
    emptyRosterBuilders.index? 0 = none ∧
    emptyRosterBuilders.builder_at_timestamp? 0 = none ∧
    emptyRosterBuilders.current_builder? 0 = none ∧
    emptyRosterBuilders.is_builder_permissioned 0 "a" = none := by
  decide

/-- Counterexample for claim C4: `SlotAuthzConfig::new` with both window
bounds set to 12 (the slot duration) stores 11, not 12: the bounds are
clamped to `[0, 11]`, so the slot duration itself is not stored unchanged. -/
theorem slot_authz_clamp_counterexample :
    (SlotAuthzConfig.new 0 12 12).block_query_start = 11 ∧
    (SlotAuthzConfig.new 0 12 12).block_query_cutoff = 11 ∧
    (SlotAuthzConfig.new 0 12 12).block_query_start ≠ 12 := by
  decide

/-- Amended claim C4: at construction (`SlotAuthzConfig::new` and the
environment loader) each window bound is clamped to `[0, 11]` — one less than
the 12-second slot duration — and never rejected: any value greater than 11
becomes 11, every value in `[0, 11]` is stored unchanged, and afterwards both
bounds are at most 11 (hence less than the slot duration). -/
theorem slot_authz_clamp (co qc qs : Nat) :
    ((SlotAuthzConfig.new co qc qs).block_query_start ≤ 11 ∧
      (SlotAuthzConfig.new co qc qs).block_query_cutoff ≤ 11) ∧
    (qs ≤ 11 → (SlotAuthzConfig.new co qc qs).block_query_start = qs) ∧
    (11 < qs → (SlotAuthzConfig.new co qc qs).block_query_start = 11) ∧
    (qc ≤ 11 → (SlotAuthzConfig.new co qc qs).block_query_cutoff = qc) ∧
    (11 < qc → (SlotAuthzConfig.new co qc qs).block_query_cutoff = 11) ∧
    SlotAuthzConfig.from_env_values co qc qs = SlotAuthzConfig.new co qc qs := by
  have h1 : ∀ v : Nat, rustClamp v 0 11 = if v ≤ 11 then v else 11 := by
    intro v
    unfold rustClamp
    simp only [Nat.max_def, Nat.min_def]
    split_ifs <;> omega
  simp only [SlotAuthzConfig.new, SlotAuthzConfig.from_env_values, h1]
  refine ⟨⟨?_, ?_⟩, ?_, ?_, ?_, ?_, by trivial⟩
  all_goals intros
  all_goals split_ifs <;> omega

/-- Witness for the amended C4 at inputs `(0, 5, 12)`: the start bound 12 is
clamped to 11, the cutoff 5 is stored unchanged, and the environment loader
agrees with `new`. -/
theorem slot_authz_clamp_witness :
    ((SlotAuthzConfig.new 0 5 12).block_query_start ≤ 11 ∧
      (SlotAuthzConfig.new 0 5 12).block_query_cutoff ≤ 11) ∧
    (SlotAuthzConfig.new 0 5 12).block_query_start = 11 ∧
    (SlotAuthzConfig.new 0 5 12).block_query_cutoff = 5 ∧
    SlotAuthzConfig.from_env_values 0 5 12 = SlotAuthzConfig.new 0 5 12 :=
  ⟨(slot_authz_clamp 0 5 12).1,
    (slot_authz_clamp 0 5 12).2.2.1 (by decide),
    (slot_authz_clamp 0 5 12).2.2.2.1 (by decide),
    (slot_authz_clamp 0 5 12).2.2.2.2.2⟩

/-- Claim C5: for every non-empty roster of length k, the round-robin
selector is periodic with period k (the index assigned to a slot equals the
index assigned to that slot plus k), `index` is this slot-to-index map
applied to `calculate_slot`, and across any k consecutive slots every index
in `0..k` is produced exactly once; concretely, for the roster
`["a","b","c"]` slot 7 yields index `7 mod 3 = 1` and the assigned identity
is `"b"` (timestamp 72 lies in slot 7). -/
theorem round_robin_spec :
    (∀ (b : Builders), b.builders ≠ [] →
      (∀ slot, b.indexOfSlot (slot + b.builders.length) = b.indexOfSlot slot) ∧
      (∀ t, b.index? t = some (b.indexOfSlot (b.calc'.calculate_slot t))) ∧
      (∀ s0 i, i < b.builders.length →
        ∃! s, (s0 ≤ s ∧ s < s0 + b.builders.length) ∧ b.indexOfSlot s = i)) ∧
    exampleBuildersABC.indexOfSlot 7 = 1 ∧
    exampleBuildersABC.calc'.calculate_slot 72 = 7 ∧
    exampleBuildersABC.index? 72 = some 1 ∧
    exampleBuildersABC.builder_at_timestamp? 72 = some ⟨"b"⟩ := by
  refine ⟨fun b hne => ?_, by decide, by decide, by decide, by decide⟩
  have hlen : b.builders.length ≠ 0 := by
    simpa [List.length_eq_zero] using hne
  have hpos : 0 < b.builders.length := Nat.pos_of_ne_zero hlen
  refine ⟨fun slot => Nat.add_mod_right slot _, fun t => ?_, fun s0 i hi => ?_⟩
  · unfold Builders.index? Builders.indexOfSlot
    rw [if_neg hlen]
  · unfold Builders.indexOfSlot
    set k := b.builders.length with hk
    have hm : s0 % k < k := Nat.mod_lt _ hpos
    have hle : s0 % k ≤ s0 := Nat.mod_le s0 k
    have huniq : ∀ x y : Nat, s0 ≤ x → x < s0 + k → s0 ≤ y → y < s0 + k →
        x % k = y % k → x = y := by
      intro x y hx1 hx2 hy1 hy2 hxy
      have hdx := Nat.div_add_mod x k
      have hdy := Nat.div_add_mod y k
      rcases Nat.lt_trichotomy (x / k) (y / k) with h | h | h
      · have h1 : k * (x / k + 1) ≤ k * (y / k) := Nat.mul_le_mul_left k (by omega)
        have h2 : k * (x / k + 1) = k * (x / k) + k := Nat.mul_succ k (x / k)
        omega
      · have h1 : k * (x / k) = k * (y / k) := by rw [h]
        omega
      · have h1 : k * (y / k + 1) ≤ k * (x / k) := Nat.mul_le_mul_left k (by omega)
        have h2 : k * (y / k + 1) = k * (y / k) + k := Nat.mul_succ k (y / k)
        omega
    have hw : (s0 + (i + k - s0 % k) % k) % k = i := by
      have h4 : s0 + (i + k - s0 % k) = k * (s0 / k) + (i + k) := by
        have hdm := Nat.div_add_mod s0 k
        omega
      have h2 : (s0 + (i + k - s0 % k) % k) % k = (s0 + (i + k - s0 % k)) % k :=
        Nat.ModEq.add_left s0 (Nat.mod_modEq _ k)
      rw [h2, h4, Nat.mul_add_mod, Nat.add_mod_right, Nat.mod_eq_of_lt hi]
    refine ⟨s0 + (i + k - s0 % k) % k,
      ⟨⟨Nat.le_add_right _ _, Nat.add_lt_add_left (Nat.mod_lt _ hpos) s0⟩, hw⟩,
      fun y hy => ?_⟩
    exact huniq y (s0 + (i + k - s0 % k) % k) hy.1.1 hy.1.2
      (Nat.le_add_right _ _) (Nat.add_lt_add_left (Nat.mod_lt _ hpos) s0)
      (by rw [hy.2, hw])

/-- Witness for C5 at `exampleBuildersABC` (roster length 3): periodicity at
slot 5, the index-of-slot link at timestamp 0, and uniqueness of the slot
with index 0 among slots 2, 3, 4. -/
theorem round_robin_spec_witness :
    exampleBuildersABC.indexOfSlot (5 + exampleBuildersABC.builders.length) =
      exampleBuildersABC.indexOfSlot 5 ∧
    exampleBuildersABC.index? 0 =
      some (exampleBuildersABC.indexOfSlot
        (exampleBuildersABC.calc'.calculate_slot 0)) ∧
    ∃! s, (2 ≤ s ∧ s < 2 + exampleBuildersABC.builders.length) ∧
      exampleBuildersABC.indexOfSlot s = 0 :=
  ⟨((round_robin_spec.1 exampleBuildersABC (by decide)).1) 5,
    ((round_robin_spec.1 exampleBuildersABC (by decide)).2.1) 0,
    ((round_robin_spec.1 exampleBuildersABC (by decide)).2.2) 2 0 (by decide)⟩

/-- Claim C9: in the interception layer a request with an absent
`x-jwt-claim-sub` header is rejected with the missing-header outcome, one
with undecodable bytes with the invalid-encoding outcome, and one decoding to
the empty string with the empty-header outcome — in each case independently
of the core authorization check, which is never consulted — and a request is
forwarded to the inner service only when the header validates and the core
check passes (so every rejection, including one produced by
`is_builder_permissioned`, short-circuits). -/
theorem middleware_dispatch (check : String → PermissionDecision)
    (header : Option (List Nat)) :
    (header = none → service_call check header = .headerRejected .missingHeader) ∧
    (∀ v, header = some v → headerValueToStr v = none →
      service_call check header = .headerRejected .invalidEncoding) ∧
    (∀ v, header = some v → headerValueToStr v = some "" →
      service_call check header = .headerRejected .headerEmpty) ∧
    (service_call check header = .forwarded →
      ∃ s, validate_header_sub header = .ok s ∧ check s = .ok) ∧
    (∀ (b : Builders) (now : Nat),
      b.service_call? now header = some .forwarded →
      ∃ s, validate_header_sub header = .ok s ∧
        b.is_builder_permissioned now s = some .ok) := by
  refine ⟨?_, ?_, ?_, ?_, ?_⟩
  · rintro rfl
    rfl
  · rintro v rfl hv
    simp [service_call, validate_header_sub, hv]
  · rintro v rfl hv
    simp [service_call, validate_header_sub, hv]
    rfl
  · intro hf
    unfold service_call at hf
    split at hf
    · simp at hf
    · rename_i s heq
      split at hf
      · simp at hf
      · rename_i heq2
        exact ⟨s, heq, heq2⟩
  · intro b now hf
    unfold Builders.service_call? at hf
    split at hf
    · simp at hf
    · rename_i s heq
      split at hf
      · simp at hf
      · simp at hf
      · rename_i heq2
        exact ⟨s, heq, heq2⟩

/-- Witness for C9: an absent header, the undecodable byte 200, the empty
byte list, a forwarded request with header byte 97 (`"a"`) under an
always-passing check, and a forwarded request through
`exampleBuildersAB.service_call?` with header byte 98 (`"b"`) at `now = 5`. -/
theorem middleware_dispatch_witness :
    service_call (fun _ => .ok) none = .headerRejected .missingHeader ∧
    service_call (fun _ => .ok) (some [200]) = .headerRejected .invalidEncoding ∧
    service_call (fun _ => .ok) (some []) = .headerRejected .headerEmpty ∧
    (∃ s, validate_header_sub (some [97]) = .ok s ∧
      (fun _ : String => PermissionDecision.ok) s = .ok) ∧
    (∃ s, validate_header_sub (some [98]) = .ok s ∧
      exampleBuildersAB.is_builder_permissioned 5 s = some .ok) :=
  ⟨(middleware_dispatch (fun _ => .ok) none).1 rfl,
    (middleware_dispatch (fun _ => .ok) (some [200])).2.1 [200] rfl (by decide),
    (middleware_dispatch (fun _ => .ok) (some [])).2.2.1 [] rfl (by decide),
    (middleware_dispatch (fun _ => .ok) (some [97])).2.2.2.1 (by decide),
    (middleware_dispatch (fun _ => .ok) (some [98])).2.2.2.2 exampleBuildersAB 5
      (by decide)⟩
